import Mathlib

/-!
Shallow embedding of `src/main.py` (TikTok downloader HTTP relay).

The Python module defines a `TikTokAPI` helper class (URL-pattern
identifier extraction, metadata fetching with endpoint fallback,
filename sanitization) and a set of Flask routes (`/info`,
`/download/video`, `/download/audio`, `/download/thumbnail`,
`/thumbnails`, `/`, `/test`) plus 404/500 error handlers.

Strings are modelled as Lean `String`; Python `None`-able JSON string
fields as `Option String` (with `none` for absent/null and `some ""`
for the empty string, both of which are falsy in Python); upstream
network interactions as explicit response values passed in.
-/

namespace TikTokAPIModel

/-- Python truthiness of an optional string: `None` and `""` are falsy,
every other string is truthy (`bool(x)` in the source's `if not url` /
`bool(video_info.get('play'))` checks). -/
def truthyS : Option String → Bool
  | none => false
  | some s => s ≠ ""

/-- The disallowed filename characters of `sanitize_filename`
(`invalid_chars = '<>:"/\\|?*'`, main.py line 166). -/
def invalid_chars : List Char := ['<', '>', ':', '"', '/', '\\', '|', '?', '*']

/-- One character step of `sanitize_filename`: each of the nine
`filename.replace(char, '_')` calls replaces a disallowed character by
an underscore and leaves every other character unchanged. -/
def sanitizeChar (c : Char) : Char :=
  if c ∈ invalid_chars then '_' else c

/-- `TikTokAPI.sanitize_filename` (main.py lines 164-169): replace each
disallowed character with `_`, then truncate with `filename[:100]`. -/
def sanitize_filename (filename : String) : String :=
  ⟨(filename.data.map sanitizeChar).take 100⟩

/-- The upstream metadata payload shape consumed by the routes: the
`data` dict of a tikwm response (or the dict built by
`format_alternative_data`).  Fields the routes read with
`video_info.get(...)`; `none` models an absent key. -/
structure Payload where
  id : Option String := none
  title : Option String := none
  duration : Option Nat := none
  author_unique_id : Option String := none
  author_nickname : Option String := none
  author_avatar : Option String := none
  play_count : Option Nat := none
  digg_count : Option Nat := none
  comment_count : Option Nat := none
  share_count : Option Nat := none
  create_time : Option Nat := none
  play : Option String := none
  music : Option String := none
  cover : Option String := none
  origin_cover : Option String := none
  dynamic_cover : Option String := none
  deriving Repr, DecidableEq

/-! ## Metadata fetcher (`get_video_info`, main.py lines 68-117) -/

/-- What one configured endpoint (`requests.get` + `response.json()`)
can yield inside the loop of `get_video_info`:
* `transportError` — `requests.exceptions.RequestException`, including
  the HTTP-error statuses surfaced by `response.raise_for_status()`;
* `malformed` — `json.JSONDecodeError` (or any other exception caught
  by the generic `except Exception` arm);
* `json code data` — a parsed JSON body, with its `code` field (absent
  key modelled as `none`) and its `data` field (`none` for an absent,
  null or empty `data`, which are all falsy in `data.get('data')`). -/
inductive UpstreamResponse where
  | transportError
  | malformed
  | json (code : Option Int) (data : Option Payload)
  deriving Repr, DecidableEq

/-- Outcome of one iteration of the endpoint loop of `get_video_info`:
`data.get('code') == 0 and data.get('data')` returns the payload,
every other case executes `continue` (modelled as `none`). -/
def tryEndpoint : UpstreamResponse → Option Payload
  | .transportError => none
  | .malformed => none
  | .json code data => if code = some 0 then data else none

/-- The alternative provider data shape (`tikmate.online`), as read by
`format_alternative_data` with `data.get(...)` accesses. -/
structure AltData where
  id : Option String := none
  title : Option String := none
  duration : Option Nat := none
  author_username : Option String := none
  author_nickname : Option String := none
  author_avatar : Option String := none
  stats_views : Option Nat := none
  stats_likes : Option Nat := none
  stats_comments : Option Nat := none
  stats_shares : Option Nat := none
  created_at : Option Nat := none
  video_url : Option String := none
  audio_url : Option String := none
  thumbnail : Option String := none
  deriving Repr, DecidableEq

/-- What the single `requests.post` of `get_video_info_alternative` can
yield: an exception (caught by its `except`), or an HTTP status with a
body carrying the `success` flag and the `data` dict (`none` when the
`data` key is absent, in which case `data.get('data', {})` supplies an
empty dict). -/
inductive AltResponse where
  | transportError
  | http (status : Nat) (success : Bool) (data : Option AltData)
  deriving Repr, DecidableEq

/-- `TikTokAPI.format_alternative_data` (main.py lines 141-162): remap
the alternative provider's fields to the tikwm payload shape; note the
single `thumbnail` URL is copied into all three cover fields. -/
def format_alternative_data (data : AltData) : Payload :=
  { id := data.id
    title := some (data.title.getD "")
    duration := data.duration
    author_unique_id := data.author_username
    author_nickname := data.author_nickname
    author_avatar := data.author_avatar
    play_count := data.stats_views
    digg_count := data.stats_likes
    comment_count := data.stats_comments
    share_count := data.stats_shares
    create_time := data.created_at
    play := data.video_url
    music := data.audio_url
    cover := data.thumbnail
    origin_cover := data.thumbnail
    dynamic_cover := data.thumbnail }

/-- `TikTokAPI.get_video_info_alternative` (main.py lines 119-139):
returns the formatted payload only when the POST succeeded with HTTP
status 200 and a truthy `success` flag; every other path falls through
to `return None`. -/
def get_video_info_alternative (r : AltResponse) : Option Payload :=
  match r with
  | .transportError => none
  | .http status success data =>
      if status = 200 then
        if success then some (format_alternative_data (data.getD {})) else none
      else none

/-- The fixed endpoint list of `TikTokAPI.__init__` (main.py lines
29-33). -/
def api_endpoints : List String :=
  ["https://tikwm.com/api/", "https://www.tikwm.com/api/", "https://api.tikwm.com/api/"]

/-- `TikTokAPI.get_video_info` (main.py lines 68-117), abstracted over
the network: `responses` gives, in endpoint order, what each configured
endpoint would answer if queried, and `alt` what the alternative
provider would answer.  The loop returns the first successful payload;
when every endpoint iteration hits a `continue`, the alternative method
is the last resort. -/
def get_video_info (responses : List UpstreamResponse) (alt : AltResponse) : Option Payload :=
  match responses with
  | [] => get_video_info_alternative alt
  | r :: rest =>
      match tryEndpoint r with
      | some payload => some payload
      | none => get_video_info rest alt

/-- The endpoints actually queried by the loop of `get_video_info`,
as indices into `responses`: endpoint 0 is always queried, and endpoint
`i+1` is queried exactly when iteration `i` executed `continue`. -/
def queriedUpstreams (responses : List UpstreamResponse) : Nat :=
  match responses with
  | [] => 0
  | r :: rest =>
      match tryEndpoint r with
      | some _ => 1
      | none => 1 + queriedUpstreams rest

/-- Whether `get_video_info` falls back to `get_video_info_alternative`:
exactly when every configured endpoint's iteration executed `continue`. -/
def usesAlternative (responses : List UpstreamResponse) : Bool :=
  match responses with
  | [] => true
  | r :: rest =>
      match tryEndpoint r with
      | some _ => false
      | none => usesAlternative rest

/-! ## Identifier extraction (`extract_video_id`, main.py lines 35-50)

Each of the six regular expression patterns is embedded as a match
function at a fixed position plus the `re.search` loop over start
positions.  Character classes are the ASCII readings of `\w` (word
character), `\d` (digit) and `[\w.-]`; `.` in the lazy star of pattern
five matches anything but a newline. -/

/-- ASCII `\w`: letters, digits, underscore. -/
def isWordChar (c : Char) : Bool :=
  (('a' ≤ c ∧ c ≤ 'z') ∨ ('A' ≤ c ∧ c ≤ 'Z') ∨ ('0' ≤ c ∧ c ≤ '9') ∨ c = '_' : Prop)

/-- `\d`: decimal digit. -/
def isDigitChar (c : Char) : Bool :=
  ('0' ≤ c ∧ c ≤ '9' : Prop)

/-- `[\w.-]`: word character, dot or hyphen (the handle class of the
`/@handle/video/` patterns). -/
def isHandleChar (c : Char) : Bool :=
  isWordChar c || c = '.' || c = '-'

/-- Match a literal, returning the rest of the input. -/
def stripLit (lit : String) (s : List Char) : Option (List Char) :=
  if lit.data.isPrefixOf s then some (s.drop lit.data.length) else none

/-- Greedy `p+` followed by end-of-pattern capture: the maximal
nonempty run of `p`-characters. -/
def plusCapture (p : Char → Bool) (s : List Char) : Option String :=
  let run := s.takeWhile p
  if run.isEmpty then none else some ⟨run⟩

/-- The optional group `(?:lit)?`: the branch list in backtracking
priority order (literal present first, then absent). -/
def optLit (lit : String) (s : List Char) : List (List Char) :=
  match stripLit lit s with
  | some r => [r, s]
  | none => [s]

/-- The optional scheme group `(?:https?://)?`: `https://` has
priority over `http://` (greedy `s?`), then the empty branch.  At most
one of the two literals can match. -/
def optScheme (s : List Char) : List (List Char) :=
  match stripLit "https://" s with
  | some r => [r, s]
  | none =>
      match stripLit "http://" s with
      | some r => [r, s]
      | none => [s]

/-- `re.search`: try the position-anchored matcher at every start
position, leftmost first. -/
def reSearch (m : List Char → Option String) (s : List Char) : Option String :=
  match m s with
  | some r => some r
  | none =>
      match s with
      | [] => none
      | _ :: rest => reSearch m rest

/-- The common core `tiktok\.com/@[\w.-]+/video/(\d+)` of patterns one
and four.  The handle run cannot contain `/`, so only the maximal run
can be followed by the `/video/` literal. -/
def matchHandleVideo (s : List Char) : Option String := do
  let s1 ← stripLit "tiktok.com/@" s
  let handle := s1.takeWhile isHandleChar
  if handle.isEmpty then none else
  let s2 ← stripLit "/video/" (s1.drop handle.length)
  plusCapture isDigitChar s2

/-- Pattern 1, `(?:https?://)?(?:www\.)?tiktok\.com/@[\w.-]+/video/(\d+)`,
anchored at one position. -/
def matchP1At (s : List Char) : Option String :=
  ((optScheme s).flatMap (optLit "www.")).findSome? matchHandleVideo

/-- Pattern 2, `(?:https?://)?(?:vm\.tiktok\.com|vt\.tiktok\.com)/(\w+)`,
anchored at one position; the alternation tries `vm` before `vt`. -/
def matchP2At (s : List Char) : Option String :=
  (optScheme s).findSome? (fun s1 =>
    match stripLit "vm.tiktok.com/" s1 with
    | some r => plusCapture isWordChar r
    | none =>
        match stripLit "vt.tiktok.com/" s1 with
        | some r => plusCapture isWordChar r
        | none => none)

/-- Pattern 3, `(?:https?://)?(?:www\.)?tiktok\.com/t/(\w+)`, anchored
at one position. -/
def matchP3At (s : List Char) : Option String :=
  ((optScheme s).flatMap (optLit "www.")).findSome? (fun s1 => do
    let s2 ← stripLit "tiktok.com/t/" s1
    plusCapture isWordChar s2)

/-- Pattern 4, `(?:https?://)?(?:m\.)?tiktok\.com/@[\w.-]+/video/(\d+)`,
anchored at one position. -/
def matchP4At (s : List Char) : Option String :=
  ((optScheme s).flatMap (optLit "m.")).findSome? matchHandleVideo

/-- The lazy tail `.*?/video/(\d+)` of pattern 5: at each expansion
length, shortest first, try the `/video/` literal and the digit
capture; `.` does not cross a newline. -/
def lazyVideoTail : List Char → Option String
  | [] => none
  | c :: rest =>
      match stripLit "/video/" (c :: rest) >>= plusCapture isDigitChar with
      | some r => some r
      | none => if c = '\n' then none else lazyVideoTail rest

/-- Pattern 5, `tiktok\.com.*?/video/(\d+)`, anchored at one position. -/
def matchP5At (s : List Char) : Option String :=
  stripLit "tiktok.com" s >>= lazyVideoTail

/-- Pattern 6, `/video/(\d+)`, anchored at one position. -/
def matchP6At (s : List Char) : Option String :=
  stripLit "/video/" s >>= plusCapture isDigitChar

/-- The six pattern searches of `extract_video_id`, in source order. -/
def patternSearches : List (String → Option String) :=
  [fun url => reSearch matchP1At url.data,
   fun url => reSearch matchP2At url.data,
   fun url => reSearch matchP3At url.data,
   fun url => reSearch matchP4At url.data,
   fun url => reSearch matchP5At url.data,
   fun url => reSearch matchP6At url.data]

/-- `TikTokAPI.extract_video_id` (main.py lines 35-50): apply each
pattern in order, returning `match.group(1)` of the first that
matches, else `None`. -/
def extract_video_id (url : String) : Option String :=
  match reSearch matchP1At url.data with
  | some v => some v
  | none =>
      match reSearch matchP2At url.data with
      | some v => some v
      | none =>
          match reSearch matchP3At url.data with
          | some v => some v
          | none =>
              match reSearch matchP4At url.data with
              | some v => some v
              | none =>
                  match reSearch matchP5At url.data with
                  | some v => some v
                  | none =>
                      match reSearch matchP6At url.data with
                      | some v => some v
                      | none => none

/-! ## HTTP routes (Flask handlers, main.py lines 174-611) -/

/-- Python `'needle' in haystack` substring test. -/
def containsSub (needle haystack : String) : Bool :=
  (List.range (haystack.data.length + 1)).any
    (fun i => needle.data.isPrefixOf (haystack.data.drop i))

/-- Python `str.lower()` restricted to ASCII (the only characters the
route compares against); `Char.toLower` lowercases exactly `A`-`Z`. -/
def strLower (s : String) : String :=
  ⟨s.data.map Char.toLower⟩

/-- UTF-8 encoding of a character as byte values, for `quote`. -/
def utf8Bytes (c : Char) : List Nat :=
  let n := c.toNat
  if n < 0x80 then [n]
  else if n < 0x800 then [0xC0 + n / 0x40, 0x80 + n % 0x40]
  else if n < 0x10000 then [0xE0 + n / 0x1000, 0x80 + n / 0x40 % 0x40, 0x80 + n % 0x40]
  else [0xF0 + n / 0x40000, 0x80 + n / 0x1000 % 0x40, 0x80 + n / 0x40 % 0x40, 0x80 + n % 0x40]

/-- Uppercase hexadecimal digit, for percent-escapes. -/
def hexDigitChar (n : Nat) : Char :=
  if n < 10 then Char.ofNat (48 + n) else Char.ofNat (55 + n)

/-- One byte of `urllib.parse.quote` output: unreserved characters
(alphanumerics, `_.-~`) and the default-safe `/` pass through, every
other byte becomes `%XX` with uppercase hex. -/
def quoteByte (n : Nat) : List Char :=
  if (65 ≤ n ∧ n ≤ 90) ∨ (97 ≤ n ∧ n ≤ 122) ∨ (48 ≤ n ∧ n ≤ 57)
      ∨ n = 95 ∨ n = 46 ∨ n = 45 ∨ n = 126 ∨ n = 47 then
    [Char.ofNat n]
  else
    ['%', hexDigitChar (n / 16), hexDigitChar (n % 16)]

/-- `urllib.parse.quote` as used in the handlers to build download
links. -/
def quote (s : String) : String :=
  ⟨s.data.flatMap (fun c => (utf8Bytes c).flatMap quoteByte)⟩

/-- The body built by `get_info` on success (main.py lines 275-307);
nested `author`/`stats`/`thumbnails`/`download_urls` dicts are
flattened into prefixed fields. -/
structure InfoData where
  id : Option String
  title : Option String
  duration : Option Nat
  author_username : Option String
  author_nickname : Option String
  author_avatar : Option String
  stats_views : Option Nat
  stats_likes : Option Nat
  stats_comments : Option Nat
  stats_shares : Option Nat
  created_at : Option Nat
  has_video : Bool
  has_audio : Bool
  thumb_cover : Option String
  thumb_origin_cover : Option String
  thumb_dynamic_cover : Option String
  dl_video : String
  dl_audio : String
  dl_thumbnail : String
  dl_thumbnails_info : String
  deriving Repr, DecidableEq

/-- The projection of `get_info` (main.py lines 275-307) from the
fetched payload and the request's `url` parameter. -/
def mapInfo (url : String) (v : Payload) : InfoData :=
  { id := v.id
    title := v.title
    duration := v.duration
    author_username := v.author_unique_id
    author_nickname := v.author_nickname
    author_avatar := v.author_avatar
    stats_views := v.play_count
    stats_likes := v.digg_count
    stats_comments := v.comment_count
    stats_shares := v.share_count
    created_at := v.create_time
    has_video := truthyS v.play
    has_audio := truthyS v.music
    thumb_cover := v.cover
    thumb_origin_cover := v.origin_cover
    thumb_dynamic_cover := v.dynamic_cover
    dl_video := "/download/video?url=" ++ quote url
    dl_audio := "/download/audio?url=" ++ quote url
    dl_thumbnail := "/download/thumbnail?url=" ++ quote url
    dl_thumbnails_info := "/thumbnails?url=" ++ quote url }

/-- The body built by `get_thumbnails` on success (main.py lines
400-412). -/
structure ThumbsData where
  cover : Option String
  origin_cover : Option String
  dynamic_cover : Option String
  dl_cover : String
  dl_origin_cover : String
  dl_dynamic_cover : String
  deriving Repr, DecidableEq

/-- An HTTP response of this service, as far as the model observes it:
a JSON error body (carrying its `error` and `message` fields; extra
keys such as `/info`'s `troubleshooting` and `debug_info` are not
modelled), a JSON success body, or a streamed relay of an upstream
`source` URL with a MIME type and a `Content-Disposition` filename.
The static `/` documentation dict and the `/test` diagnostics are
opaque (`homeDocs`, `testReport`). -/
inductive Resp where
  | err (status : Nat) (error message : String)
  | infoOk (body : InfoData)
  | thumbsOk (body : ThumbsData)
  | stream (source mimetype filename : String)
  | homeDocs
  | testReport
  deriving Repr, DecidableEq

/-- HTTP status of a response (success bodies and streams go out as
200). -/
def Resp.status : Resp → Nat
  | .err s _ _ => s
  | _ => 200

/-- Whether the response is a JSON object with `error` and `message`
fields. -/
def Resp.isErrorJson : Resp → Bool
  | .err _ _ _ => true
  | _ => false

/-- `get_info` (main.py lines 233-317), abstracted over the upstream
world: missing/empty `url` → 400; a `url` containing none of the three
TikTok host substrings → 400; fetch failure → 404; otherwise the
projected metadata body. -/
def get_info (url : Option String) (rs : List UpstreamResponse) (alt : AltResponse) : Resp :=
  if !truthyS url then
    .err 400 "Missing \x27url\x27 parameter" "Please provide a TikTok URL"
  else
    let u := url.getD ""
    if !containsSub "tiktok.com" u && !containsSub "vm.tiktok.com" u
        && !containsSub "vt.tiktok.com" u then
      .err 400 "Invalid TikTok URL" "Please provide a valid TikTok URL"
    else
      match get_video_info rs alt with
      | none =>
          .err 404 "Failed to fetch video information"
            "The video might be private, deleted, or the URL is invalid. Please check the URL and try again."
      | some v => .infoOk (mapInfo u v)

/-- `download_video` (main.py lines 319-379): missing `url` → 400,
fetch failure → 404, falsy `play` field → 404, else stream the video
URL as `video/mp4` with the sanitized filename. -/
def download_video (url : Option String) (rs : List UpstreamResponse) (alt : AltResponse) : Resp :=
  if !truthyS url then
    .err 400 "Missing \x27url\x27 parameter" "Please provide a TikTok URL"
  else
    match get_video_info rs alt with
    | none => .err 404 "Failed to fetch video information" "Invalid URL or video not accessible"
    | some v =>
        let video_url := v.play
        if !truthyS video_url then
          .err 404 "Video URL not found" "This video may not be available for download"
        else
          let author := v.author_unique_id.getD "unknown"
          let safe_title := sanitize_filename (v.title.getD "TikTok Video")
          let video_id := v.id.getD "unknown"
          .stream (video_url.getD "") "video/mp4"
            (author ++ "_" ++ safe_title ++ "_" ++ video_id ++ ".mp4")

/-- `get_thumbnails` (main.py lines 381-420): missing `url` → 400,
fetch failure → 404, else the three thumbnail URLs with per-quality
download links. -/
def get_thumbnails (url : Option String) (rs : List UpstreamResponse) (alt : AltResponse) : Resp :=
  if !truthyS url then
    .err 400 "Missing \x27url\x27 parameter" "Please provide a TikTok URL"
  else
    let u := url.getD ""
    match get_video_info rs alt with
    | none => .err 404 "Failed to fetch video information" "Invalid URL or video not accessible"
    | some v =>
        .thumbsOk
          { cover := v.cover
            origin_cover := v.origin_cover
            dynamic_cover := v.dynamic_cover
            dl_cover := "/download/thumbnail?url=" ++ quote u ++ "&quality=high"
            dl_origin_cover := "/download/thumbnail?url=" ++ quote u ++ "&quality=medium"
            dl_dynamic_cover := "/download/thumbnail?url=" ++ quote u ++ "&quality=low" }

/-- The quality → thumbnail-field chain of `download_thumbnail`
(main.py lines 443-452), applied to the already-lowercased quality
value. -/
def selectThumbnail (quality : String) (v : Payload) : Option String :=
  if quality = "high" then v.cover
  else if quality = "medium" then v.origin_cover
  else if quality = "low" then v.dynamic_cover
  else v.cover

/-- `download_thumbnail` (main.py lines 422-494): the `quality`
parameter defaults to `high` and is lowercased (line 427); missing
`url` → 400, fetch failure → 404, falsy selected thumbnail URL → 404,
else stream it as `image/jpeg`. -/
def download_thumbnail (url quality : Option String) (rs : List UpstreamResponse)
    (alt : AltResponse) : Resp :=
  let q := strLower (quality.getD "high")
  if !truthyS url then
    .err 400 "Missing \x27url\x27 parameter" "Please provide a TikTok URL"
  else
    match get_video_info rs alt with
    | none => .err 404 "Failed to fetch video information" "Invalid URL or video not accessible"
    | some v =>
        let thumbnail_url := selectThumbnail q v
        if !truthyS thumbnail_url then
          .err 404 "Thumbnail URL not found" "This video may not have available thumbnails"
        else
          let author := v.author_unique_id.getD "unknown"
          let safe_title := sanitize_filename (v.title.getD "TikTok Thumbnail")
          let video_id := v.id.getD "unknown"
          .stream (thumbnail_url.getD "") "image/jpeg"
            (author ++ "_" ++ safe_title ++ "_" ++ video_id ++ "_" ++ q ++ ".jpg")

/-- `download_audio` (main.py lines 496-556): like `download_video`
but on the `music` field, streamed as `audio/mpeg`. -/
def download_audio (url : Option String) (rs : List UpstreamResponse) (alt : AltResponse) : Resp :=
  if !truthyS url then
    .err 400 "Missing \x27url\x27 parameter" "Please provide a TikTok URL"
  else
    match get_video_info rs alt with
    | none => .err 404 "Failed to fetch video information" "Invalid URL or video not accessible"
    | some v =>
        let audio_url := v.music
        if !truthyS audio_url then
          .err 404 "Audio URL not found" "This video may not have extractable audio"
        else
          let author := v.author_unique_id.getD "unknown"
          let safe_title := sanitize_filename (v.title.getD "TikTok Audio")
          let video_id := v.id.getD "unknown"
          .stream (audio_url.getD "") "audio/mpeg"
            (author ++ "_" ++ safe_title ++ "_" ++ video_id ++ ".mp3")

/-- A GET request to the service: path plus the `url` and `quality`
query parameters. -/
structure Request where
  path : String
  url : Option String := none
  quality : Option String := none
  deriving Repr, DecidableEq

/-- The routes registered with `@app.route` in main.py, in file order. -/
def registeredRoutes : List String :=
  ["/", "/info", "/download/video", "/thumbnails", "/download/thumbnail",
   "/download/audio", "/test"]

/-- Flask dispatch over the registered routes; an unregistered path
falls to the `@app.errorhandler(404)` handler `not_found` (main.py
lines 599-604). -/
def dispatch (req : Request) (rs : List UpstreamResponse) (alt : AltResponse) : Resp :=
  if req.path = "/" then .homeDocs
  else if req.path = "/info" then get_info req.url rs alt
  else if req.path = "/download/video" then download_video req.url rs alt
  else if req.path = "/thumbnails" then get_thumbnails req.url rs alt
  else if req.path = "/download/thumbnail" then download_thumbnail req.url req.quality rs alt
  else if req.path = "/download/audio" then download_audio req.url rs alt
  else if req.path = "/test" then .testReport
  else .err 404 "Endpoint not found" "Please check the API documentation at \x27/\x27"

/-! ## Helper lemmas -/

theorem sanitizeChar_idem (c : Char) : sanitizeChar (sanitizeChar c) = sanitizeChar c := by
  unfold sanitizeChar
  by_cases h : c ∈ invalid_chars
  · simp [h]
  · simp [h]

theorem sanitizeChar_not_invalid (c : Char) : sanitizeChar c ∉ invalid_chars := by
  unfold sanitizeChar
  by_cases h : c ∈ invalid_chars
  · simp only [if_pos h]
    decide
  · simp only [if_neg h]
    exact h

theorem sanitize_filename_data (s : String) :
    (sanitize_filename s).data = (s.data.map sanitizeChar).take 100 := rfl

/-! ## Claim theorems -/

/-- C3: for every input string, the output of `sanitize_filename`
contains no character from the disallowed set `<>:"/\|?*` and its
length never exceeds the fixed cap of 100 characters. -/
theorem sanitize_filename_safe (s : String) :
    ((sanitize_filename s).data.all fun c => decide (c ∉ invalid_chars)) = true ∧
    (sanitize_filename s).length ≤ 100 := by
  constructor
  · rw [List.all_eq_true]
    intro c hc
    rw [sanitize_filename_data] at hc
    obtain ⟨a, _, rfl⟩ := List.mem_map.1 (List.mem_of_mem_take hc)
    exact decide_eq_true (sanitizeChar_not_invalid a)
  · show (sanitize_filename s).data.length ≤ 100
    rw [sanitize_filename_data, List.length_take]
    omega

/-- C4 counterexample: the claim says the sanitizer output is never
empty, with separator collapsing and a default-name substitute; in the
code the empty string maps to the empty string and repeated substituted
separators survive verbatim. -/
theorem sanitize_filename_empty_cex :
    sanitize_filename "" = "" ∧ sanitize_filename "a??b" = "a__b" := by
  constructor <;> rfl

/-- C4 (amended): the sanitizer neither collapses repeated separators
nor substitutes a default name; its output is empty exactly when its
input is empty. -/
theorem sanitize_filename_empty_iff (s : String) :
    (sanitize_filename s = "" ↔ s = "") ∧ sanitize_filename "a??b" = "a__b" := by
  refine ⟨?_, rfl⟩
  obtain ⟨l⟩ := s
  constructor
  · intro h
    have hd : ((l.map sanitizeChar).take 100).length = 0 := by
      rw [← sanitize_filename_data, h]
      rfl
    rw [List.length_take, List.length_map] at hd
    have hlen : l.length = 0 := by omega
    have hnil : l = [] := List.length_eq_zero.1 hlen
    rw [hnil]
  · intro h
    rw [h]
    rfl

/-- C10: `sanitize_filename` is idempotent: replacing the disallowed
characters again changes nothing, and a string already truncated to
100 characters is unchanged by a second truncation. -/
theorem sanitize_filename_idempotent (s : String) :
    sanitize_filename (sanitize_filename s) = sanitize_filename s := by
  obtain ⟨l⟩ := s
  show String.mk ((((l.map sanitizeChar).take 100).map sanitizeChar).take 100) =
    String.mk ((l.map sanitizeChar).take 100)
  congr 1
  rw [List.map_take, List.take_take, List.map_map]
  have hmap : l.map (sanitizeChar ∘ sanitizeChar) = l.map sanitizeChar :=
    List.map_congr_left fun c _ => sanitizeChar_idem c
  rw [hmap]
  norm_num

/-- C5: the `/info` projection sets `has_video` to true exactly when
the payload's `play` field is a non-null, non-empty URL, and likewise
`has_audio` from the `music` field. -/
theorem info_presence_flags (u : String) (v : Payload) :
    ((mapInfo u v).has_video = true ↔ ∃ s, v.play = some s ∧ s ≠ "") ∧
    ((mapInfo u v).has_audio = true ↔ ∃ s, v.music = some s ∧ s ≠ "") := by
  constructor
  · show truthyS v.play = true ↔ _
    cases v.play with
    | none => simp [truthyS]
    | some s => simp [truthyS]
  · show truthyS v.music = true ↔ _
    cases v.music with
    | none => simp [truthyS]
    | some s => simp [truthyS]

/-- The advance condition of claim C1, read as stated: the loop moves
to the next endpoint exactly on a transport error, malformed JSON, or
a non-success JSON code. -/
def claimAdvance (r : UpstreamResponse) : Prop :=
  r = .transportError ∨ r = .malformed ∨ ∃ c d, r = .json c d ∧ c ≠ some 0

/-- The advance condition actually implemented by `get_video_info`:
additionally, a success-coded body whose `data` field is absent, null
or empty also falls through to `continue`. -/
def codeAdvance (r : UpstreamResponse) : Prop :=
  r = .transportError ∨ r = .malformed ∨ ∃ c d, r = .json c d ∧ (c ≠ some 0 ∨ d = none)

/-- C1 counterexample: a well-formed success-coded response with a
null `data` field is none of the three advance conditions the claim
enumerates, yet the loop advances past it: with such a first response
the fetcher still queries the second endpoint and returns its payload. -/
theorem fetch_advance_claim_cex :
    tryEndpoint (.json (some 0) none) = none ∧
    ¬ claimAdvance (.json (some 0) none) ∧
    queriedUpstreams [.json (some 0) none, .json (some 0) (some {})] = 2 ∧
    get_video_info [.json (some 0) none, .json (some 0) (some {})] .transportError =
      some {} := by
  refine ⟨rfl, ?_, rfl, rfl⟩
  intro h
  rcases h with h | h | ⟨c, d, h, hc⟩
  · exact absurd h (by simp)
  · exact absurd h (by simp)
  · cases h
    exact hc rfl

/-- C1 (amended): the endpoint loop advances exactly on a transport
error, malformed JSON, a non-success JSON code, or a success-coded
body with an absent/null/empty `data` field; the result is the first
successful payload in endpoint order, with the alternate-shaped
provider consulted exactly when every configured endpoint failed, and
`none` when every attempt fails. -/
theorem get_video_info_fallback_policy (rs : List UpstreamResponse) (alt : AltResponse) :
    (∀ r, tryEndpoint r = none ↔ codeAdvance r) ∧
    get_video_info rs alt =
      (match rs.findSome? tryEndpoint with
       | some payload => some payload
       | none => get_video_info_alternative alt) ∧
    (usesAlternative rs = true ↔ ∀ r ∈ rs, tryEndpoint r = none) ∧
    ((∀ r ∈ rs, tryEndpoint r = none) → get_video_info_alternative alt = none →
      get_video_info rs alt = none) := by
  have hadv : ∀ r, tryEndpoint r = none ↔ codeAdvance r := by
    intro r
    cases r with
    | transportError => simp [tryEndpoint, codeAdvance]
    | malformed => simp [tryEndpoint, codeAdvance]
    | json c d =>
        by_cases hc : c = some 0
        · subst hc
          simp only [tryEndpoint, codeAdvance, if_pos rfl]
          constructor
          · intro h
            exact Or.inr (Or.inr ⟨some 0, d, rfl, Or.inr h⟩)
          · rintro (h | h | ⟨c₁, d₁, heq, h⟩)
            · exact absurd h (by simp)
            · exact absurd h (by simp)
            · cases heq
              rcases h with h | h
              · exact absurd rfl h
              · exact h
        · simp only [tryEndpoint, codeAdvance, if_neg hc]
          constructor
          · intro _
            exact Or.inr (Or.inr ⟨c, d, rfl, Or.inl hc⟩)
          · intro _
            trivial
  have hmain : ∀ rs : List UpstreamResponse,
      get_video_info rs alt =
        (match rs.findSome? tryEndpoint with
         | some payload => some payload
         | none => get_video_info_alternative alt) := by
    intro rs
    induction rs with
    | nil => rfl
    | cons r rest ih =>
        cases h : tryEndpoint r with
        | some payload => simp [get_video_info, List.findSome?_cons, h]
        | none => simp [get_video_info, List.findSome?_cons, h, ih]
  have huses : ∀ rs : List UpstreamResponse,
      (usesAlternative rs = true ↔ ∀ r ∈ rs, tryEndpoint r = none) := by
    intro rs
    induction rs with
    | nil => simp [usesAlternative]
    | cons r rest ih =>
        cases h : tryEndpoint r with
        | some payload =>
            simp only [usesAlternative, h]
            constructor
            · intro hfalse
              exact absurd hfalse (by simp)
            · intro hall
              have := hall r (by simp)
              rw [h] at this
              exact absurd this (by simp)
        | none =>
            simp only [usesAlternative, h]
            rw [ih]
            constructor
            · intro hall r hr
              rcases List.mem_cons.1 hr with hr | hr
              · rw [hr, h]
              · exact hall r hr
            · intro hall r hr
              exact hall r (List.mem_cons_of_mem _ hr)
  refine ⟨hadv, hmain rs, huses rs, ?_⟩
  intro hall halt
  rw [hmain rs]
  have hfs : rs.findSome? tryEndpoint = none := by
    rw [List.findSome?_eq_none_iff]
    exact hall
  rw [hfs]
  exact halt

/-- C1 witness: the amended fallback policy evaluated at concrete
worlds — first endpoint erroring, second returning a non-success code,
third succeeding yields the third payload; three failures plus a
failing alternate provider yield `none`. -/
theorem get_video_info_fallback_policy_witness :
    get_video_info [.transportError, .json (some (-1)) none, .json (some 0) (some {})]
      .transportError = some {} ∧
    get_video_info [.transportError, .malformed, .json (some 5) none] .transportError = none := by
  constructor
  · rw [(get_video_info_fallback_policy
      [.transportError, .json (some (-1)) none, .json (some 0) (some {})] .transportError).2.1]
    rfl
  · exact (get_video_info_fallback_policy
      [.transportError, .malformed, .json (some 5) none] .transportError).2.2.2
      (by decide) rfl

/-- The five routes that read the `url` query parameter. -/
def urlRoutes : List String :=
  ["/info", "/download/video", "/download/audio", "/download/thumbnail", "/thumbnails"]

theorem get_info_missing_url (url : Option String) (rs : List UpstreamResponse)
    (alt : AltResponse) (hu : truthyS url = false) :
    get_info url rs alt =
      .err 400 "Missing \x27url\x27 parameter" "Please provide a TikTok URL" := by
  simp [get_info, hu]

theorem download_video_missing_url (url : Option String) (rs : List UpstreamResponse)
    (alt : AltResponse) (hu : truthyS url = false) :
    download_video url rs alt =
      .err 400 "Missing \x27url\x27 parameter" "Please provide a TikTok URL" := by
  simp [download_video, hu]

theorem download_audio_missing_url (url : Option String) (rs : List UpstreamResponse)
    (alt : AltResponse) (hu : truthyS url = false) :
    download_audio url rs alt =
      .err 400 "Missing \x27url\x27 parameter" "Please provide a TikTok URL" := by
  simp [download_audio, hu]

theorem download_thumbnail_missing_url (url quality : Option String)
    (rs : List UpstreamResponse) (alt : AltResponse) (hu : truthyS url = false) :
    download_thumbnail url quality rs alt =
      .err 400 "Missing \x27url\x27 parameter" "Please provide a TikTok URL" := by
  simp [download_thumbnail, hu]

theorem get_thumbnails_missing_url (url : Option String) (rs : List UpstreamResponse)
    (alt : AltResponse) (hu : truthyS url = false) :
    get_thumbnails url rs alt =
      .err 400 "Missing \x27url\x27 parameter" "Please provide a TikTok URL" := by
  simp [get_thumbnails, hu]

/-- C2 counterexample: an invalid (but present) `url` is rejected with
400 only by `/info`; `/download/video` runs the fetch instead and, when
it fails, answers 404 — so "missing or invalid → 400" does not hold of
every url-taking route. -/
theorem routes_400_claim_cex :
    containsSub "tiktok.com" "x" = false ∧
    dispatch { path := "/download/video", url := some "x" }
      [.transportError, .transportError, .transportError] .transportError =
      .err 404 "Failed to fetch video information" "Invalid URL or video not accessible" ∧
    (dispatch { path := "/download/video", url := some "x" }
      [.transportError, .transportError, .transportError] .transportError).status ≠ 400 := by
  refine ⟨by decide, rfl, by decide⟩

/-- C2 (amended): a missing or empty `url` parameter yields status 400
with a JSON `error`/`message` body on every url-taking route; a
present `url` failing the TikTok-host check yields that 400 body on
`/info` only. -/
theorem url_routes_error_400 :
    (∀ (req : Request) (rs : List UpstreamResponse) (alt : AltResponse),
      req.path ∈ urlRoutes → truthyS req.url = false →
      dispatch req rs alt =
        .err 400 "Missing \x27url\x27 parameter" "Please provide a TikTok URL") ∧
    (∀ (u : String) (rs : List UpstreamResponse) (alt : AltResponse),
      truthyS (some u) = true →
      (!containsSub "tiktok.com" u && !containsSub "vm.tiktok.com" u
        && !containsSub "vt.tiktok.com" u) = true →
      get_info (some u) rs alt =
        .err 400 "Invalid TikTok URL" "Please provide a valid TikTok URL") := by
  constructor
  · intro req rs alt hp hu
    obtain ⟨path, url, quality⟩ := req
    simp only [urlRoutes] at hp
    simp only at hu
    fin_cases hp
    · simpa [dispatch] using get_info_missing_url url rs alt hu
    · simpa [dispatch] using download_video_missing_url url rs alt hu
    · simpa [dispatch] using download_audio_missing_url url rs alt hu
    · simpa [dispatch] using download_thumbnail_missing_url url quality rs alt hu
    · simpa [dispatch] using get_thumbnails_missing_url url rs alt hu
  · intro u rs alt hu hv
    simp [get_info, hu, hv]

/-- C2 witness: a request with no `url` to `/thumbnails`, and an
`/info` request for a non-TikTok URL, both get the 400 error body. -/
theorem url_routes_error_400_witness :
    dispatch { path := "/thumbnails" } [] .transportError =
      .err 400 "Missing \x27url\x27 parameter" "Please provide a TikTok URL" ∧
    get_info (some "https://example.com/x") [] .transportError =
      .err 400 "Invalid TikTok URL" "Please provide a valid TikTok URL" :=
  ⟨url_routes_error_400.1 { path := "/thumbnails" } [] .transportError (by decide) rfl,
   url_routes_error_400.2 "https://example.com/x" [] .transportError (by decide) (by decide)⟩

/-- A concrete payload with three distinct thumbnail URLs. -/
def thumbPayloadCex : Payload :=
  { id := some "1"
    title := some "t"
    author_unique_id := some "a"
    cover := some "C.jpg"
    origin_cover := some "O.jpg"
    dynamic_cover := some "D.jpg" }

/-- C6 counterexample: the quality value is lowercased before the
comparison chain, so `MEDIUM` — a value outside the literal
`{high, medium, low}` enumeration — selects the `origin_cover` field,
not the `cover` field the claim prescribes for out-of-enumeration
values. -/
theorem thumbnail_quality_claim_cex :
    "MEDIUM" ∉ (["high", "medium", "low"] : List String) ∧
    download_thumbnail (some "https://www.tiktok.com/@a/video/1") (some "MEDIUM")
      [.json (some 0) (some thumbPayloadCex)] .transportError =
      .stream "O.jpg" "image/jpeg" "a_t_1_medium.jpg" ∧
    thumbPayloadCex.origin_cover ≠ thumbPayloadCex.cover := by
  refine ⟨by decide, rfl, by decide⟩

/-- C6 (amended): the route lowercases the quality parameter
(defaulting it to `high` first); after lowercasing, `high` selects
`cover`, `medium` selects `origin_cover`, `low` selects
`dynamic_cover`, anything else selects `cover`, and an absent
parameter selects `cover`. -/
theorem thumbnail_quality_mapping (quality : Option String) (v : Payload) :
    (strLower (quality.getD "high") = "high" →
      selectThumbnail (strLower (quality.getD "high")) v = v.cover) ∧
    (strLower (quality.getD "high") = "medium" →
      selectThumbnail (strLower (quality.getD "high")) v = v.origin_cover) ∧
    (strLower (quality.getD "high") = "low" →
      selectThumbnail (strLower (quality.getD "high")) v = v.dynamic_cover) ∧
    (strLower (quality.getD "high") ≠ "high" →
      strLower (quality.getD "high") ≠ "medium" →
      strLower (quality.getD "high") ≠ "low" →
      selectThumbnail (strLower (quality.getD "high")) v = v.cover) ∧
    (quality = none → selectThumbnail (strLower (quality.getD "high")) v = v.cover) := by
  refine ⟨?_, ?_, ?_, ?_, ?_⟩
  · intro h
    simp [selectThumbnail, h]
  · intro h
    simp [selectThumbnail, h]
  · intro h
    simp [selectThumbnail, h]
  · intro h1 h2 h3
    simp [selectThumbnail, h1, h2, h3]
  · intro h
    subst h
    rfl

/-- C6 witness: the amended mapping evaluated at `quality=MEDIUM`,
which lowercases to `medium` and selects `origin_cover`. -/
theorem thumbnail_quality_mapping_witness :
    selectThumbnail (strLower ((some "MEDIUM" : Option String).getD "high"))
      ({ origin_cover := some "O.jpg" } : Payload) = some "O.jpg" :=
  (thumbnail_quality_mapping (some "MEDIUM") { origin_cover := some "O.jpg" }).2.1 rfl

/-- C7: when the fetch succeeds but the payload's `play` field is
absent, null or empty, `/download/video` answers 404 with the
`error`/`message` JSON body. -/
theorem download_video_missing_play_404 (u : String) (rs : List UpstreamResponse)
    (alt : AltResponse) (v : Payload) (hu : u ≠ "")
    (hf : get_video_info rs alt = some v) (hp : truthyS v.play = false) :
    download_video (some u) rs alt =
      .err 404 "Video URL not found" "This video may not be available for download" := by
  have hu' : truthyS (some u) = true := by simp [truthyS, hu]
  simp [download_video, hu', hf, hp]

/-- C7 witness: a fetched payload whose `play` field is the empty
string gets the 404 `Video URL not found` body. -/
theorem download_video_missing_play_404_witness :
    download_video (some "https://www.tiktok.com/@a/video/1")
      [.json (some 0) (some { play := some "" })] .transportError =
      .err 404 "Video URL not found" "This video may not be available for download" :=
  download_video_missing_play_404 "https://www.tiktok.com/@a/video/1"
    [.json (some 0) (some { play := some "" })] .transportError { play := some "" }
    (by decide) rfl (by decide)

/-- C9: the service registers no `/health` route — a GET to `/health`
falls to the `@app.errorhandler(404)` handler and gets the generic
`Endpoint not found` body instead of a liveness JSON, contradicting
both the spec and the startup banner of main.py (line 622), which
advertises `http://localhost:5000/health`. -/
theorem health_endpoint_missing (u q : Option String) (rs : List UpstreamResponse)
    (alt : AltResponse) :
    dispatch { path := "/health", url := u, quality := q } rs alt =
      .err 404 "Endpoint not found" "Please check the API documentation at \x27/\x27" ∧
    "/health" ∉ registeredRoutes := by
  exact ⟨rfl, by decide⟩

/-- C8: `extract_video_id` returns the captured group of the first
pattern, in the fixed source order, whose search succeeds, and `none`
when no pattern matches; concretely, each known URL shape yields its
expected captured group (standard `@user/video/<digits>` links, `vm.`
and `vt.` short links, `/t/` short links, mobile links, a bare
`/video/<digits>` path), and a URL matching no pattern yields `none`. -/
theorem extract_video_id_first_pattern :
    (∀ url : String, extract_video_id url = patternSearches.findSome? (fun f => f url)) ∧
    extract_video_id "https://www.tiktok.com/@selenagomez/video/7001245956863126789" =
      some "7001245956863126789" ∧
    extract_video_id "https://vm.tiktok.com/ZMabc123/" = some "ZMabc123" ∧
    extract_video_id "https://vt.tiktok.com/ZSxyz/" = some "ZSxyz" ∧
    extract_video_id "https://www.tiktok.com/t/ZTxyz9/" = some "ZTxyz9" ∧
    extract_video_id "m.tiktok.com/@user_1/video/123" = some "123" ∧
    extract_video_id "https://example.com/video/42" = some "42" ∧
    extract_video_id "tiktok.com/embed/video/999" = some "999" ∧
    extract_video_id "https://example.com/watch?v=1" = none := by
  refine ⟨?_, by decide, by decide, by decide, by decide, by decide, by decide, by decide,
    by decide⟩
  intro url
  unfold extract_video_id patternSearches
  simp only [List.findSome?_cons, List.findSome?_nil]
  cases reSearch matchP1At url.data <;>
    cases reSearch matchP2At url.data <;>
      cases reSearch matchP3At url.data <;>
        cases reSearch matchP4At url.data <;>
          cases reSearch matchP5At url.data <;>
            cases reSearch matchP6At url.data <;>
              rfl

end TikTokAPIModel
